import Mathlib

/-!
Verification of the Data Factory PostgreSQL dataset resource
(`internal/services/datafactory/data_factory_dataset_postgresql_resource.go`).

The lifecycle handlers are embedded as pure Lean functions over an explicit
resource-state record and explicit models of the external API's responses.
Helpers that live elsewhere in the repository (the `parse` resource-id package,
`utils.ResponseWasNotFound`, the expand/flatten helpers, and the plugin SDK's
schema enforcement) are modelled from the specification and marked as such.
-/

set_option maxHeartbeats 1000000

namespace DataFactoryPostgreSQL

/-- Splits a character list on the separator character of resource-id paths.
Mirrors splitting a string on "/": `splitSlash "a/b".data = ["a".data, "b".data]`,
with empty segments preserved. -/
def splitSlash : List Char → List (List Char)
  | [] => [[]]
  | c :: cs =>
    if c = '/' then [] :: splitSlash cs
    else
      match splitSlash cs with
      | [] => [[c]]
      | s :: ss => (c :: s) :: ss

theorem splitSlash_cons_slash (cs : List Char) :
    splitSlash ('/' :: cs) = [] :: splitSlash cs := by
  simp [splitSlash]

theorem splitSlash_no_slash : ∀ (xs : List Char), '/' ∉ xs → splitSlash xs = [xs]
  | [], _ => rfl
  | c :: cs, h => by
    have hc : ¬ c = '/' := fun e => h (e ▸ List.mem_cons_self c cs)
    have hcs : '/' ∉ cs := fun m => h (List.mem_cons_of_mem _ m)
    simp [splitSlash, hc, splitSlash_no_slash cs hcs]

theorem splitSlash_append (xs ys : List Char) (h : '/' ∉ xs) :
    splitSlash (xs ++ '/' :: ys) = xs :: splitSlash ys := by
  induction xs with
  | nil => simp [splitSlash]
  | cons c cs ih =>
    have hc : ¬ c = '/' := fun e => h (e ▸ List.mem_cons_self c cs)
    have hcs : '/' ∉ cs := fun m => h (List.mem_cons_of_mem _ m)
    simp [splitSlash, hc, ih hcs]

theorem data_append (a b : String) : (a ++ b).data = a.data ++ b.data := rfl

theorem data_ne_nil (s : String) (h : s ≠ "") : s.data ≠ [] := by
  intro e
  apply h
  cases s
  simp_all

/-- The structured dataset identifier: subscription → resource group → factory →
dataset name. Mirrors `parse.DataSetId`. -/
structure DataSetId where
  subscriptionId : String
  resourceGroup : String
  factoryName : String
  name : String
deriving DecidableEq

/-- Mirrors `parse.NewDataSetID`. -/
def NewDataSetID (subscriptionId resourceGroup factoryName name : String) : DataSetId :=
  ⟨subscriptionId, resourceGroup, factoryName, name⟩

/-- Modelled from the spec: the `parse` package (not part of the excerpt)
formats a dataset identifier as
`/subscriptions/{sub}/resourceGroups/{rg}/providers/Microsoft.DataFactory/factories/{factory}/datasets/{name}`.
Mirrors `parse.DataSetId.ID`. -/
def DataSetId.ID (id : DataSetId) : String :=
  "/subscriptions/" ++ id.subscriptionId ++ "/resourceGroups/" ++ id.resourceGroup ++
    "/providers/Microsoft.DataFactory/factories/" ++ id.factoryName ++
    "/datasets/" ++ id.name

/-- Modelled from the spec: the `parse` package's dataset-identifier parser
(not part of the excerpt). Splits the path on `/`, checks the fixed segments,
and requires every variable segment to be non-empty. Mirrors `parse.DataSetID`. -/
def DataSetID (input : String) : Except String DataSetId :=
  match splitSlash input.data with
  | [pre, seg1, sub, seg2, rg, seg3, prov, seg4, factory, seg5, nm] =>
    if pre = ([] : List Char) ∧ seg1 = "subscriptions".data ∧ seg2 = "resourceGroups".data ∧
        seg3 = "providers".data ∧ prov = "Microsoft.DataFactory".data ∧
        seg4 = "factories".data ∧ seg5 = "datasets".data ∧
        sub ≠ [] ∧ rg ≠ [] ∧ factory ≠ [] ∧ nm ≠ [] then
      .ok ⟨⟨sub⟩, ⟨rg⟩, ⟨factory⟩, ⟨nm⟩⟩
    else
      .error ("parsing dataset resource id " ++ input)
  | _ => .error ("parsing dataset resource id " ++ input)

/-- The structured data-factory identifier. Mirrors `parse.DataFactoryId`. -/
structure DataFactoryId where
  subscriptionId : String
  resourceGroup : String
  factoryName : String
deriving DecidableEq

/-- Mirrors `parse.NewDataFactoryID`. -/
def NewDataFactoryID (subscriptionId resourceGroup factoryName : String) : DataFactoryId :=
  ⟨subscriptionId, resourceGroup, factoryName⟩

/-- Modelled from the spec: formatter for a data-factory identifier,
`/subscriptions/{sub}/resourceGroups/{rg}/providers/Microsoft.DataFactory/factories/{factory}`.
Mirrors `parse.DataFactoryId.ID`. -/
def DataFactoryId.ID (id : DataFactoryId) : String :=
  "/subscriptions/" ++ id.subscriptionId ++ "/resourceGroups/" ++ id.resourceGroup ++
    "/providers/Microsoft.DataFactory/factories/" ++ id.factoryName

/-- Modelled from the spec: the `parse` package's data-factory-identifier
parser (not part of the excerpt). Mirrors `parse.DataFactoryID`. -/
def DataFactoryID (input : String) : Except String DataFactoryId :=
  match splitSlash input.data with
  | [pre, seg1, sub, seg2, rg, seg3, prov, seg4, factory] =>
    if pre = ([] : List Char) ∧ seg1 = "subscriptions".data ∧ seg2 = "resourceGroups".data ∧
        seg3 = "providers".data ∧ prov = "Microsoft.DataFactory".data ∧
        seg4 = "factories".data ∧
        sub ≠ [] ∧ rg ≠ [] ∧ factory ≠ [] then
      .ok ⟨⟨sub⟩, ⟨rg⟩, ⟨factory⟩⟩
    else
      .error ("parsing data factory resource id " ++ input)
  | _ => .error ("parsing data factory resource id " ++ input)

/-- A valid identifier component: non-empty and free of the path separator. -/
def validComponent (s : String) : Prop := s ≠ "" ∧ '/' ∉ s.data

instance (s : String) : Decidable (validComponent s) := by
  unfold validComponent
  infer_instance

/-- Claim C2: constructing a dataset identifier from valid components and
parsing the resulting string yields exactly the original components. -/
theorem dataSetId_roundtrip (sub rg factory nm : String)
    (hs : validComponent sub) (hr : validComponent rg)
    (hf : validComponent factory) (hn : validComponent nm) :
    DataSetID (NewDataSetID sub rg factory nm).ID =
      Except.ok (NewDataSetID sub rg factory nm) := by
  obtain ⟨hs1, hs2⟩ := hs
  obtain ⟨hr1, hr2⟩ := hr
  obtain ⟨hf1, hf2⟩ := hf
  obtain ⟨hn1, hn2⟩ := hn
  have e : ((NewDataSetID sub rg factory nm).ID).data =
      '/' :: ("subscriptions".data ++ '/' :: (sub.data ++ '/' ::
        ("resourceGroups".data ++ '/' :: (rg.data ++ '/' ::
          ("providers".data ++ '/' :: ("Microsoft.DataFactory".data ++ '/' ::
            ("factories".data ++ '/' :: (factory.data ++ '/' ::
              ("datasets".data ++ '/' :: nm.data))))))))) := by
    simp only [NewDataSetID, DataSetId.ID, data_append, List.append_assoc]
    rfl
  have key : splitSlash ((NewDataSetID sub rg factory nm).ID).data =
      [[], "subscriptions".data, sub.data, "resourceGroups".data, rg.data,
        "providers".data, "Microsoft.DataFactory".data, "factories".data,
        factory.data, "datasets".data, nm.data] := by
    rw [e, splitSlash_cons_slash, splitSlash_append _ _ (by decide),
      splitSlash_append _ _ hs2, splitSlash_append _ _ (by decide),
      splitSlash_append _ _ hr2, splitSlash_append _ _ (by decide),
      splitSlash_append _ _ (by decide), splitSlash_append _ _ (by decide),
      splitSlash_append _ _ hf2, splitSlash_append _ _ (by decide),
      splitSlash_no_slash _ hn2]
  simp only [DataSetID, key]
  rw [if_pos ⟨trivial, trivial, trivial, trivial, trivial, trivial, trivial,
    data_ne_nil _ hs1, data_ne_nil _ hr1, data_ne_nil _ hf1, data_ne_nil _ hn1⟩]
  rfl

/-- Claim C2 witness: the round-trip law at a concrete identifier. -/
theorem dataSetId_roundtrip_witness :
    validComponent "12345678-1234-9876-4563-123456789012" ∧
      DataSetID (NewDataSetID "12345678-1234-9876-4563-123456789012" "resGroup1"
          "factory1" "dataset1").ID =
        Except.ok (NewDataSetID "12345678-1234-9876-4563-123456789012" "resGroup1"
          "factory1" "dataset1") :=
  ⟨by decide,
    dataSetId_roundtrip "12345678-1234-9876-4563-123456789012" "resGroup1"
      "factory1" "dataset1" (by decide) (by decide) (by decide) (by decide)⟩

/-- One declared column of the `schema_column` list. -/
structure SchemaColumn where
  name : String
  ty : String
  description : String
deriving DecidableEq

/-- A dynamically-typed value carried in the SDK's interface-typed slots
(`TableName`, `Structure`): a string, a column list, or something else. -/
inductive GoValue where
  | str (s : String)
  | columnList (cs : List SchemaColumn)
  | nonString
deriving DecidableEq

/-- The SDK's `datafactory.ParameterSpecification` (type and default value). -/
structure ParameterSpecification where
  ty : String
  defaultValue : String
deriving DecidableEq

/-- Modelled from the spec: `expandDataFactoryParameters` (defined elsewhere in
the repository) structurally expands the declared string-to-string parameter
map into the SDK's parameter-specification map. -/
def expandDataFactoryParameters (ps : List (String × String)) :
    List (String × ParameterSpecification) :=
  ps.map fun p => (p.1, ⟨"String", p.2⟩)

/-- Modelled from the spec: `flattenDataFactoryParameters` (defined elsewhere
in the repository) flattens the SDK's parameter-specification map back into the
declared string-to-string map; an absent map flattens to the empty map. -/
def flattenDataFactoryParameters :
    Option (List (String × ParameterSpecification)) → List (String × String)
  | none => []
  | some ps => ps.map fun p => (p.1, p.2.defaultValue)

/-- Modelled from the spec: `flattenDataFactoryAnnotations` (defined elsewhere
in the repository) flattens the ordered list of string annotation values; an
absent list flattens to the empty list. -/
def flattenDataFactoryAnnots : Option (List String) → List String
  | none => []
  | some l => l

/-- Modelled from the spec: `expandDataFactoryDatasetStructure` (defined
elsewhere in the repository) expands the declared column list into the SDK's
interface-typed `Structure` slot. -/
def expandDataFactoryDatasetStructure (cs : List SchemaColumn) : GoValue :=
  .columnList cs

/-- Modelled from the spec: `flattenDataFactoryStructureColumns` (defined
elsewhere in the repository) flattens the `Structure` slot back into the
declared column list; anything that is not a column list flattens to `[]`. -/
def flattenDataFactoryStructureColumns : Option GoValue → List SchemaColumn
  | some (.columnList cs) => cs
  | _ => []

/-- Modelled from the spec: `utils.ResponseWasNotFound` (defined elsewhere in
the repository) classifies an HTTP response as "not found" by its status
code. -/
def responseWasNotFound (statusCode : Nat) : Bool := statusCode == 404

/-- The SDK's `datafactory.LinkedServiceReference`. -/
structure LinkedServiceReference where
  referenceName : Option String
  ty : Option String
deriving DecidableEq

/-- The SDK's `datafactory.DatasetFolder`. -/
structure DatasetFolder where
  name : Option String
deriving DecidableEq

/-- The SDK's `datafactory.RelationalTableDatasetTypeProperties`; `TableName`
is interface-typed in the SDK. -/
structure RelationalTableDatasetTypeProperties where
  tableName : GoValue
deriving DecidableEq

/-- The SDK's `datafactory.RelationalTableDataset`: the concrete payload this
resource builds on create/update and expects back on read. Pointer-valued SDK
fields are `Option`s; the interface-typed `Structure` slot is a `GoValue`.
(`annots` mirrors the SDK's list-of-annotation-values field.) -/
structure RelationalTableDataset where
  relationalTableDatasetTypeProperties : Option RelationalTableDatasetTypeProperties
  linkedServiceName : Option LinkedServiceReference
  description : Option String
  folder : Option DatasetFolder
  parameters : Option (List (String × ParameterSpecification))
  annots : Option (List String)
  additionalProperties : List (String × String)
  struct : Option GoValue
deriving DecidableEq

/-- The SDK's type-tagged union of dataset payloads (`datafactory.BasicDataset`);
only the relational-table variant is relevant here, every other concrete
variant is collapsed into `otherDataset`. -/
inductive BasicDataset where
  | relationalTable (rt : RelationalTableDataset)
  | otherDataset
deriving DecidableEq

/-- The SDK's `AsRelationalTableDataset` conversion: succeeds exactly on the
relational-table variant. -/
def BasicDataset.asRelationalTableDataset :
    BasicDataset → Option RelationalTableDataset
  | .relationalTable rt => some rt
  | .otherDataset => none

/-- The SDK constant `datafactory.TypeBasicDatasetTypePostgreSQLTable`. -/
def TypeBasicDatasetTypePostgreSQLTable : String := "PostgreSQLTable"

/-- The SDK's `datafactory.DatasetResource`: the type-tagged request payload. -/
structure DatasetResource where
  properties : RelationalTableDataset
  ty : String
deriving DecidableEq

/-- The Declared Resource State: the plugin SDK's `ResourceData` restricted to
the fields this resource declares, plus the persistent key (`d.Id()`) and the
fresh-creation flag (`d.IsNewResource()`). A string field holds `""` when
unset and a map/list field holds `[]` when unset, matching the SDK's
zero-value convention for `Get`; `GetOk` reports a field set when it is
non-zero. (`annots` is the declared `annotations` list.) -/
structure ResourceState where
  id : String
  isNewResource : Bool
  name : String
  data_factory_name : String
  data_factory_id : String
  resource_group_name : String
  linked_service_name : String
  table_name : String
  parameters : List (String × String)
  description : String
  annots : List String
  folder : String
  additional_properties : List (String × String)
  schema_column : List SchemaColumn
deriving DecidableEq

/-- Outcome of `client.Get` during the create-path pre-existence probe: the
returned error (if any), the HTTP status code of the response, and the `ID`
field of the returned entity (`nil`, empty, or a non-empty identifier). -/
structure ProbeResult where
  err : Option String
  statusCode : Nat
  id : Option String
deriving DecidableEq

/-- Outcome of `client.Get` during read: the returned error (if any), the HTTP
status code, the type-tagged payload, and the resource-level type discriminator
(always present in a type-tagged response). -/
structure DatasetGetResult where
  err : Option String
  statusCode : Nat
  properties : BasicDataset
  ty : String
deriving DecidableEq

/-- Outcome of `client.Delete`: the returned error (if any) and the HTTP
status code of the response. -/
structure DeleteResult where
  err : Option String
  statusCode : Nat
deriving DecidableEq

/-- Errors the read handler can return. -/
inductive ReadError where
  | parseIdError (msg : String)
  | retrieveError (id : DataSetId) (msg : String)
  | classifyError (id : DataSetId) (expected received : String)
deriving DecidableEq

/-- `resourceDataFactoryDatasetPostgreSQLRead`: parse the persisted identifier,
fetch the entity (`resp` models the fetch's outcome), clear the persistent key
and succeed on not-found, type-check the payload against the relational-table
variant, and copy each field of the payload back into the declared state. -/
def resourceDataFactoryDatasetPostgreSQLRead (d : ResourceState)
    (resp : DatasetGetResult) : Except ReadError ResourceState :=
  match DataSetID d.id with
  | .error e => .error (.parseIdError e)
  | .ok id =>
    let dataFactoryId := NewDataFactoryID id.subscriptionId id.resourceGroup id.factoryName
    match resp.err with
    | some e =>
      if responseWasNotFound resp.statusCode then .ok { d with id := "" }
      else .error (.retrieveError id e)
    | none =>
      let d := { d with name := id.name, resource_group_name := id.resourceGroup,
                        data_factory_name := id.factoryName,
                        data_factory_id := dataFactoryId.ID }
      match resp.properties.asRelationalTableDataset with
      | none => .error (.classifyError id TypeBasicDatasetTypePostgreSQLTable resp.ty)
      | some postgresqlTable =>
        let d := { d with additional_properties := postgresqlTable.additionalProperties }
        let d := match postgresqlTable.description with
          | some s => { d with description := s }
          | none => d
        let d := { d with
          parameters := flattenDataFactoryParameters postgresqlTable.parameters }
        let d := { d with annots := flattenDataFactoryAnnots postgresqlTable.annots }
        let d := match postgresqlTable.linkedServiceName with
          | some linkedService =>
            match linkedService.referenceName with
            | some rn => { d with linked_service_name := rn }
            | none => d
          | none => d
        let d := match postgresqlTable.relationalTableDatasetTypeProperties with
          | some properties =>
            match properties.tableName with
            | .str val => { d with table_name := val }
            | _ => d
          | none => d
        let d := match postgresqlTable.folder with
          | some folder =>
            match folder.name with
            | some fn => { d with folder := fn }
            | none => d
          | none => d
        let d := { d with
          schema_column := flattenDataFactoryStructureColumns postgresqlTable.struct }
        .ok d

/-- Errors the delete handler can return. -/
inductive DeleteError where
  | parseIdError (msg : String)
  | deleteError (id : DataSetId) (msg : String)
deriving DecidableEq

/-- `resourceDataFactoryDatasetPostgreSQLDelete`: parse the persisted
identifier, invoke the external delete (`response` models its outcome), treat
not-found as success, and wrap any other failure with the identifier. -/
def resourceDataFactoryDatasetPostgreSQLDelete (idStr : String)
    (response : DeleteResult) : Except DeleteError Unit :=
  match DataSetID idStr with
  | .error e => .error (.parseIdError e)
  | .ok id =>
    match response.err with
    | some e =>
      if ¬ responseWasNotFound response.statusCode then .error (.deleteError id e)
      else .ok ()
    | none => .ok ()

/-- Builds the `datafactory.RelationalTableDataset` payload from the declared
state: required fields unconditionally, optional fields only when `GetOk`
reports them set (non-zero). -/
def buildPostgresqlTableset (d : ResourceState) : RelationalTableDataset :=
  { relationalTableDatasetTypeProperties := some { tableName := .str d.table_name }
    linkedServiceName := some { referenceName := some d.linked_service_name,
                                ty := some "LinkedServiceReference" }
    description := some d.description
    folder := if d.folder ≠ "" then some { name := some d.folder } else none
    parameters :=
      if d.parameters ≠ [] then some (expandDataFactoryParameters d.parameters) else none
    annots := if d.annots ≠ [] then some d.annots else none
    additionalProperties :=
      if d.additional_properties ≠ [] then d.additional_properties else []
    struct :=
      if d.schema_column ≠ [] then some (expandDataFactoryDatasetStructure d.schema_column)
      else none }

/-- The type-tagged `datafactory.DatasetResource` sent to `CreateOrUpdate`. -/
def buildDatasetResource (d : ResourceState) : DatasetResource :=
  { properties := buildPostgresqlTableset d, ty := TypeBasicDatasetTypePostgreSQLTable }

/-- Outcome of the create/update handler. `panicNilDataFactoryId` models the
Go runtime's nil-pointer dereference of `dataFactoryId` when neither
`data_factory_name` nor `data_factory_id` resolved it; `errConfig` is produced
only by the schema-validation wrapper `invokeCreateUpdate`. -/
inductive CreateUpdateOutcome where
  | errConfig
  | errDataFactoryIdParse (msg : String)
  | panicNilDataFactoryId
  | errCheckExisting (id : DataSetId) (msg : String)
  | errImportAsExists (resourceName existingId : String)
  | errCreateOrUpdate (id : DataSetId) (msg : String)
  | readResult (r : Except ReadError ResourceState)

/-- The create/update handler's result together with the external calls it
issued: `probed` records whether the pre-existence `client.Get` probe was
made, and `mutation` records the payload sent to `client.CreateOrUpdate`
(`none` when no mutating call was issued). -/
structure CreateUpdateResult where
  outcome : CreateUpdateOutcome
  probed : Bool
  mutation : Option DatasetResource

/-- The external API's behaviour during one create/update invocation: the
probe's outcome, the error of `CreateOrUpdate` (if any), and the outcome of
the `client.Get` issued by the final read. -/
structure CreateUpdateApi where
  probe : ProbeResult
  createOrUpdateErr : Option String
  readResp : DatasetGetResult
deriving DecidableEq

/-- Whether the probe returned an entity whose `ID` is set and non-empty
(`existing.ID != nil && *existing.ID != ""`). -/
def existingIdNonEmpty : Option String → Bool
  | some s => s != ""
  | none => false

/-- The tail of the create/update handler shared by the fresh-creation and
update paths: build the payload, invoke `CreateOrUpdate`, and on success adopt
the constructed identifier as the persistent key and re-invoke the read
handler, returning its result. -/
def createOrUpdateAndRead (d : ResourceState) (id : DataSetId)
    (api : CreateUpdateApi) (probed : Bool) : CreateUpdateResult :=
  let dataset := buildDatasetResource d
  match api.createOrUpdateErr with
  | some e => ⟨.errCreateOrUpdate id e, probed, some dataset⟩
  | none =>
    let d := { d with id := id.ID }
    ⟨.readResult (resourceDataFactoryDatasetPostgreSQLRead d api.readResp), probed,
      some dataset⟩

/-- `resourceDataFactoryDatasetPostgreSQLCreateUpdate`: resolve the
data-factory identifier from the legacy `data_factory_name` field or the new
`data_factory_id` field (the latter wins when both are set), construct the
dataset identifier, probe for a pre-existing entity on fresh creation (already
existing entities produce an import-as-exists conflict, a hard probe error is
surfaced, not-found is not an error), then build the payload and invoke
`CreateOrUpdate`; on success adopt the identifier and re-invoke read. -/
def resourceDataFactoryDatasetPostgreSQLCreateUpdate (subscriptionId : String)
    (d : ResourceState) (api : CreateUpdateApi) : CreateUpdateResult :=
  let dataFactoryIdFromName : Option DataFactoryId :=
    if d.data_factory_name ≠ "" then
      some (NewDataFactoryID subscriptionId d.resource_group_name d.data_factory_name)
    else none
  let resolved : Except String (Option DataFactoryId) :=
    if d.data_factory_id ≠ "" then
      match DataFactoryID d.data_factory_id with
      | .ok i => .ok (some i)
      | .error e => .error e
    else .ok dataFactoryIdFromName
  match resolved with
  | .error e => ⟨.errDataFactoryIdParse e, false, none⟩
  | .ok none => ⟨.panicNilDataFactoryId, false, none⟩
  | .ok (some dataFactoryId) =>
    let id := NewDataSetID subscriptionId dataFactoryId.resourceGroup
      dataFactoryId.factoryName d.name
    if d.isNewResource then
      if api.probe.err.isSome && !(responseWasNotFound api.probe.statusCode) then
        ⟨.errCheckExisting id (api.probe.err.getD ""), true, none⟩
      else if existingIdNonEmpty api.probe.id then
        ⟨.errImportAsExists "azurerm_data_factory_dataset_postgresql"
          (api.probe.id.getD ""), true, none⟩
      else
        createOrUpdateAndRead d id api true
    else
      createOrUpdateAndRead d id api false

/-- One field of the resource schema, restricted to the attributes the
verified claims depend on (validation predicates and element schemas are
opaque collaborators). -/
structure SchemaField where
  name : String
  required : Bool
  optional : Bool
  computed : Bool
  forceNew : Bool
  deprecated : Bool
  exactlyOneOf : List String
deriving DecidableEq

/-- Go's `time.Minute` measured in nanoseconds. -/
def timeMinute : Nat := 60 * 1000000000

/-- The per-operation default timeouts of the resource descriptor, in
nanoseconds. -/
structure ResourceTimeout where
  create : Nat
  read : Nat
  update : Nat
  delete : Nat
deriving DecidableEq

/-- The static part of a resource descriptor: default timeouts and declared
schema fields. -/
structure Resource where
  timeouts : ResourceTimeout
  schema : List SchemaField
deriving DecidableEq

/-- `resourceDataFactoryDatasetPostgreSQL`: the static resource descriptor —
per-operation default timeouts and the declared schema fields, mirroring the
`Timeouts` and `Schema` blocks of the source. -/
def resourceDataFactoryDatasetPostgreSQL : Resource :=
  { timeouts := { create := 30 * timeMinute, read := 5 * timeMinute,
                  update := 30 * timeMinute, delete := 30 * timeMinute }
    schema := [
      { name := "name", required := true, optional := false, computed := false,
        forceNew := true, deprecated := false, exactlyOneOf := [] },
      { name := "data_factory_name", required := false, optional := true,
        computed := true, forceNew := true, deprecated := true,
        exactlyOneOf := ["data_factory_id"] },
      { name := "data_factory_id", required := false, optional := true,
        computed := true, forceNew := true, deprecated := false,
        exactlyOneOf := ["data_factory_name"] },
      { name := "resource_group_name", required := true, optional := false,
        computed := false, forceNew := true, deprecated := false, exactlyOneOf := [] },
      { name := "linked_service_name", required := true, optional := false,
        computed := false, forceNew := false, deprecated := false, exactlyOneOf := [] },
      { name := "table_name", required := false, optional := true, computed := false,
        forceNew := false, deprecated := false, exactlyOneOf := [] },
      { name := "parameters", required := false, optional := true, computed := false,
        forceNew := false, deprecated := false, exactlyOneOf := [] },
      { name := "description", required := false, optional := true, computed := false,
        forceNew := false, deprecated := false, exactlyOneOf := [] },
      { name := "annotations", required := false, optional := true, computed := false,
        forceNew := false, deprecated := false, exactlyOneOf := [] },
      { name := "folder", required := false, optional := true, computed := false,
        forceNew := false, deprecated := false, exactlyOneOf := [] },
      { name := "additional_properties", required := false, optional := true,
        computed := false, forceNew := false, deprecated := false, exactlyOneOf := [] },
      { name := "schema_column", required := false, optional := true, computed := false,
        forceNew := false, deprecated := false, exactlyOneOf := [] } ] }

/-- Whether the declared state supplies a value for the named schema field
(non-zero in the SDK's sense). -/
def fieldIsSet (d : ResourceState) : String → Bool
  | "name" => d.name != ""
  | "data_factory_name" => d.data_factory_name != ""
  | "data_factory_id" => d.data_factory_id != ""
  | "resource_group_name" => d.resource_group_name != ""
  | "linked_service_name" => d.linked_service_name != ""
  | "table_name" => d.table_name != ""
  | "parameters" => !d.parameters.isEmpty
  | "description" => d.description != ""
  | "annotations" => !d.annots.isEmpty
  | "folder" => d.folder != ""
  | "additional_properties" => !d.additional_properties.isEmpty
  | "schema_column" => !d.schema_column.isEmpty
  | _ => false

/-- Modelled from the spec: the host runtime rejects, before invoking any
lifecycle handler, a configuration that sets a schema field together with any
field listed in its `ExactlyOneOf` constraint (mutual exclusivity). -/
def exactlyOneOfViolated (r : Resource) (d : ResourceState) : Bool :=
  r.schema.any fun f =>
    !f.exactlyOneOf.isEmpty && fieldIsSet d f.name && f.exactlyOneOf.any (fieldIsSet d)

/-- Modelled from the spec: the host runtime validates the configuration
against the schema's declared constraints and only then invokes the
create/update handler; a violation is a configuration error and no handler —
hence no external call — runs. -/
def invokeCreateUpdate (subscriptionId : String) (d : ResourceState)
    (api : CreateUpdateApi) : CreateUpdateResult :=
  if exactlyOneOfViolated resourceDataFactoryDatasetPostgreSQL d then
    ⟨.errConfig, false, none⟩
  else
    resourceDataFactoryDatasetPostgreSQLCreateUpdate subscriptionId d api

/-- A concrete dataset identifier used by the witnesses. -/
def sampleId : DataSetId := NewDataSetID "sub1" "group1" "factory1" "dataset1"

/-- A concrete declared state whose persistent key is `sampleId`. -/
def sampleState : ResourceState :=
  { id := sampleId.ID
    isNewResource := false
    name := "dataset1"
    data_factory_name := "factory1"
    data_factory_id := ""
    resource_group_name := "group1"
    linked_service_name := "ls1"
    table_name := "tbl"
    parameters := []
    description := ""
    annots := []
    folder := ""
    additional_properties := []
    schema_column := [] }

/-- A concrete relational-table payload with every optional field absent. -/
def sampleEmptyPayload : RelationalTableDataset :=
  { relationalTableDatasetTypeProperties := some { tableName := GoValue.nonString }
    linkedServiceName := none
    description := none
    folder := none
    parameters := none
    annots := none
    additionalProperties := []
    struct := none }

/-- Claim C3: when the persisted identifier parses and the read-path fetch
reports not-found, the read handler clears the persistent key (signalling the
entity is gone) and returns success, never an error. -/
theorem read_notFound_clears_state (d : ResourceState) (resp : DatasetGetResult)
    (i : DataSetId) (hparse : DataSetID d.id = Except.ok i)
    (e : String) (herr : resp.err = some e) (h404 : resp.statusCode = 404) :
    resourceDataFactoryDatasetPostgreSQLRead d resp =
      Except.ok { d with id := "" } := by
  simp [resourceDataFactoryDatasetPostgreSQLRead, hparse, herr, h404,
    responseWasNotFound]

/-- Claim C3 witness: the not-found read at a concrete state and response. -/
theorem read_notFound_clears_state_witness :
    resourceDataFactoryDatasetPostgreSQLRead sampleState
        { err := some "dataset was not found", statusCode := 404,
          properties := BasicDataset.otherDataset, ty := "AzureBlob" } =
      Except.ok { sampleState with id := "" } :=
  read_notFound_clears_state sampleState
    { err := some "dataset was not found", statusCode := 404,
      properties := BasicDataset.otherDataset, ty := "AzureBlob" }
    sampleId rfl "dataset was not found" rfl rfl

/-- Claim C4: the delete handler succeeds when the external delete reports
not-found (idempotent delete) and wraps every other delete failure with the
identifier. -/
theorem delete_notFound_ok_other_wrapped (idStr : String) (i : DataSetId)
    (hparse : DataSetID idStr = Except.ok i) (response : DeleteResult)
    (e : String) (herr : response.err = some e) :
    (response.statusCode = 404 →
      resourceDataFactoryDatasetPostgreSQLDelete idStr response = Except.ok ()) ∧
    (response.statusCode ≠ 404 →
      resourceDataFactoryDatasetPostgreSQLDelete idStr response =
        Except.error (DeleteError.deleteError i e)) := by
  constructor
  · intro h
    simp [resourceDataFactoryDatasetPostgreSQLDelete, hparse, herr,
      responseWasNotFound, h]
  · intro h
    simp [resourceDataFactoryDatasetPostgreSQLDelete, hparse, herr,
      responseWasNotFound, h]

/-- Claim C4 witness: idempotent delete at a concrete identifier and a
concrete not-found response. -/
theorem delete_notFound_ok_other_wrapped_witness :
    resourceDataFactoryDatasetPostgreSQLDelete sampleId.ID
        { err := some "dataset was not found", statusCode := 404 } =
      Except.ok () :=
  (delete_notFound_ok_other_wrapped sampleId.ID sampleId rfl
    { err := some "dataset was not found", statusCode := 404 }
    "dataset was not found" rfl).1 rfl

/-- Claim C7: when the fetched entity exists but its payload is not the
relational-table variant, the read handler returns a classification error
naming the expected type and the received type; it neither skips the entity
nor reports success. -/
theorem read_typeMismatch_hard_error (d : ResourceState) (resp : DatasetGetResult)
    (i : DataSetId) (hparse : DataSetID d.id = Except.ok i)
    (herr : resp.err = none) (hmis : resp.properties = BasicDataset.otherDataset) :
    resourceDataFactoryDatasetPostgreSQLRead d resp =
      Except.error (ReadError.classifyError i TypeBasicDatasetTypePostgreSQLTable
        resp.ty) := by
  simp [resourceDataFactoryDatasetPostgreSQLRead, hparse, herr, hmis,
    BasicDataset.asRelationalTableDataset]

/-- Claim C7 witness: the classification error at a concrete mismatching
response. -/
theorem read_typeMismatch_hard_error_witness :
    resourceDataFactoryDatasetPostgreSQLRead sampleState
        { err := none, statusCode := 200,
          properties := BasicDataset.otherDataset, ty := "AzureBlob" } =
      Except.error (ReadError.classifyError sampleId
        TypeBasicDatasetTypePostgreSQLTable "AzureBlob") :=
  read_typeMismatch_hard_error sampleState
    { err := none, statusCode := 200,
      properties := BasicDataset.otherDataset, ty := "AzureBlob" }
    sampleId rfl rfl rfl

/-- Claim C8: on a successful read, optional fields absent upstream — nil
description, nil linked-service reference, nil folder, non-string table name —
are left exactly as they were in the declared state; only present fields are
written back. -/
theorem read_absent_optional_fields_left_unset (d : ResourceState)
    (resp : DatasetGetResult) (i : DataSetId) (rt : RelationalTableDataset)
    (hparse : DataSetID d.id = Except.ok i) (herr : resp.err = none)
    (hp : resp.properties = BasicDataset.relationalTable rt)
    (hdesc : rt.description = none)
    (hls : rt.linkedServiceName = none)
    (hfold : rt.folder = none)
    (htn : ∀ p, rt.relationalTableDatasetTypeProperties = some p →
      ∀ s, p.tableName ≠ GoValue.str s) :
    (resourceDataFactoryDatasetPostgreSQLRead d resp).map
        (fun d' => (d'.description, d'.linked_service_name, d'.folder, d'.table_name)) =
      Except.ok (d.description, d.linked_service_name, d.folder, d.table_name) := by
  rcases htp : rt.relationalTableDatasetTypeProperties with _ | p
  · simp [resourceDataFactoryDatasetPostgreSQLRead, hparse, herr, hp,
      BasicDataset.asRelationalTableDataset, hdesc, hls, hfold, htp, Except.map]
  · rcases hv : p.tableName with s | cs | _
    · exact absurd hv (htn p htp s)
    · simp [resourceDataFactoryDatasetPostgreSQLRead, hparse, herr, hp,
        BasicDataset.asRelationalTableDataset, hdesc, hls, hfold, htp, hv, Except.map]
    · simp [resourceDataFactoryDatasetPostgreSQLRead, hparse, herr, hp,
        BasicDataset.asRelationalTableDataset, hdesc, hls, hfold, htp, hv, Except.map]

/-- Claim C8 witness: a successful read of a payload with every optional field
absent leaves the concrete state's optional fields untouched. -/
theorem read_absent_optional_fields_left_unset_witness :
    (resourceDataFactoryDatasetPostgreSQLRead sampleState
          { err := none, statusCode := 200,
            properties := BasicDataset.relationalTable sampleEmptyPayload,
            ty := "PostgreSQLTable" }).map
        (fun d' => (d'.description, d'.linked_service_name, d'.folder, d'.table_name)) =
      Except.ok (sampleState.description, sampleState.linked_service_name,
        sampleState.folder, sampleState.table_name) :=
  read_absent_optional_fields_left_unset sampleState
    { err := none, statusCode := 200,
      properties := BasicDataset.relationalTable sampleEmptyPayload,
      ty := "PostgreSQLTable" }
    sampleId sampleEmptyPayload rfl rfl rfl rfl rfl rfl
    (by intro p hp s; simp [sampleEmptyPayload] at hp; simp [← hp])

/-- Claim C9: whenever the handler reaches the external create-or-update call
and that call succeeds, it adopts the constructed identifier as the persistent
key and returns the result of re-invoking the read handler on the updated
state. -/
theorem createUpdate_success_adopts_id_and_reads (subscriptionId : String)
    (d : ResourceState) (api : CreateUpdateApi)
    (hname : d.data_factory_name ≠ "") (hid : d.data_factory_id = "")
    (hprobe : d.isNewResource = true → api.probe.err = none ∧ api.probe.id = none)
    (hok : api.createOrUpdateErr = none) :
    resourceDataFactoryDatasetPostgreSQLCreateUpdate subscriptionId d api =
      ⟨CreateUpdateOutcome.readResult
          (resourceDataFactoryDatasetPostgreSQLRead
            { d with id := (NewDataSetID subscriptionId d.resource_group_name
                d.data_factory_name d.name).ID }
            api.readResp),
        d.isNewResource, some (buildDatasetResource d)⟩ := by
  cases hnew : d.isNewResource with
  | true =>
    obtain ⟨hperr, hpid⟩ := hprobe hnew
    simp [resourceDataFactoryDatasetPostgreSQLCreateUpdate, hname, hid, hnew,
      hperr, hpid, existingIdNonEmpty, createOrUpdateAndRead, hok,
      NewDataFactoryID, NewDataSetID]
  | false =>
    simp [resourceDataFactoryDatasetPostgreSQLCreateUpdate, hname, hid, hnew,
      createOrUpdateAndRead, hok, NewDataFactoryID, NewDataSetID]

/-- Claim C9 witness: a concrete successful update adopts the identifier and
returns the read handler's result. -/
theorem createUpdate_success_adopts_id_and_reads_witness :
    resourceDataFactoryDatasetPostgreSQLCreateUpdate "sub1" sampleState
        { probe := { err := none, statusCode := 200, id := none },
          createOrUpdateErr := none,
          readResp := { err := none, statusCode := 200,
                        properties := BasicDataset.relationalTable sampleEmptyPayload,
                        ty := "PostgreSQLTable" } } =
      ⟨CreateUpdateOutcome.readResult
          (resourceDataFactoryDatasetPostgreSQLRead
            { sampleState with id := (NewDataSetID "sub1" sampleState.resource_group_name
                sampleState.data_factory_name sampleState.name).ID }
            { err := none, statusCode := 200,
              properties := BasicDataset.relationalTable sampleEmptyPayload,
              ty := "PostgreSQLTable" }),
        sampleState.isNewResource, some (buildDatasetResource sampleState)⟩ :=
  createUpdate_success_adopts_id_and_reads "sub1" sampleState
    { probe := { err := none, statusCode := 200, id := none },
      createOrUpdateErr := none,
      readResp := { err := none, statusCode := 200,
                    properties := BasicDataset.relationalTable sampleEmptyPayload,
                    ty := "PostgreSQLTable" } }
    (by decide) rfl (by intro h; exact ⟨rfl, rfl⟩) rfl

/-- Claim C1: on fresh creation, a probe that returns an entity with a
non-empty identifier makes the handler fail with the import-as-exists conflict
and no mutating call is issued, while a not-found probe response is not an
error and creation proceeds to the mutating call. -/
theorem create_existing_conflict_notFound_proceeds (subscriptionId : String)
    (d : ResourceState) (api : CreateUpdateApi)
    (hname : d.data_factory_name ≠ "") (hid : d.data_factory_id = "")
    (hnew : d.isNewResource = true) :
    (∀ eid, api.probe.err = none → api.probe.id = some eid → eid ≠ "" →
      resourceDataFactoryDatasetPostgreSQLCreateUpdate subscriptionId d api =
        ⟨CreateUpdateOutcome.errImportAsExists
          "azurerm_data_factory_dataset_postgresql" eid, true, none⟩) ∧
    (∀ e, api.probe.err = some e → api.probe.statusCode = 404 →
      api.probe.id = none →
      (resourceDataFactoryDatasetPostgreSQLCreateUpdate subscriptionId d api).mutation =
        some (buildDatasetResource d)) := by
  constructor
  · intro eid hperr hpid heid
    simp [resourceDataFactoryDatasetPostgreSQLCreateUpdate, hname, hid, hnew,
      hperr, hpid, existingIdNonEmpty, heid]
  · intro e hperr hpstat hpid
    cases hcu : api.createOrUpdateErr with
    | some msg =>
      simp [resourceDataFactoryDatasetPostgreSQLCreateUpdate, hname, hid, hnew,
        hperr, hpstat, hpid, responseWasNotFound, existingIdNonEmpty,
        createOrUpdateAndRead, hcu]
    | none =>
      simp [resourceDataFactoryDatasetPostgreSQLCreateUpdate, hname, hid, hnew,
        hperr, hpstat, hpid, responseWasNotFound, existingIdNonEmpty,
        createOrUpdateAndRead, hcu]

/-- Claim C1 witness: a concrete fresh creation whose probe finds an existing
entity fails with the conflict and issues no mutating call. -/
theorem create_existing_conflict_notFound_proceeds_witness :
    resourceDataFactoryDatasetPostgreSQLCreateUpdate "sub1"
        { sampleState with isNewResource := true }
        { probe := { err := none, statusCode := 200, id := some sampleId.ID },
          createOrUpdateErr := none,
          readResp := { err := none, statusCode := 200,
                        properties := BasicDataset.relationalTable sampleEmptyPayload,
                        ty := "PostgreSQLTable" } } =
      ⟨CreateUpdateOutcome.errImportAsExists
        "azurerm_data_factory_dataset_postgresql" sampleId.ID, true, none⟩ :=
  (create_existing_conflict_notFound_proceeds "sub1"
    { sampleState with isNewResource := true }
    { probe := { err := none, statusCode := 200, id := some sampleId.ID },
      createOrUpdateErr := none,
      readResp := { err := none, statusCode := 200,
                    properties := BasicDataset.relationalTable sampleEmptyPayload,
                    ty := "PostgreSQLTable" } }
    (by decide) rfl rfl).1 sampleId.ID rfl rfl (by decide)

/-- Claim C5: a declared state that supplies both the legacy
`data_factory_name` field and the new `data_factory_id` field violates the
schema's mutual-exclusivity constraint and is rejected as a configuration
error before any external call: no probe and no mutating call are issued. -/
theorem bothFactoryFields_rejected_before_api (subscriptionId : String)
    (d : ResourceState) (api : CreateUpdateApi)
    (hname : d.data_factory_name ≠ "") (hid : d.data_factory_id ≠ "") :
    invokeCreateUpdate subscriptionId d api =
      ⟨CreateUpdateOutcome.errConfig, false, none⟩ := by
  have hv : exactlyOneOfViolated resourceDataFactoryDatasetPostgreSQL d = true := by
    simp [exactlyOneOfViolated, resourceDataFactoryDatasetPostgreSQL, fieldIsSet,
      hname, hid]
  simp [invokeCreateUpdate, hv]

/-- Claim C5 witness: a concrete state with both factory fields set is
rejected with the configuration error. -/
theorem bothFactoryFields_rejected_before_api_witness :
    invokeCreateUpdate "sub1"
        { sampleState with
            data_factory_id := (NewDataFactoryID "sub1" "group1" "factory1").ID }
        { probe := { err := none, statusCode := 200, id := none },
          createOrUpdateErr := none,
          readResp := { err := none, statusCode := 200,
                        properties := BasicDataset.relationalTable sampleEmptyPayload,
                        ty := "PostgreSQLTable" } } =
      ⟨CreateUpdateOutcome.errConfig, false, none⟩ :=
  bothFactoryFields_rejected_before_api "sub1"
    { sampleState with
        data_factory_id := (NewDataFactoryID "sub1" "group1" "factory1").ID }
    { probe := { err := none, statusCode := 200, id := none },
      createOrUpdateErr := none,
      readResp := { err := none, statusCode := 200,
                    properties := BasicDataset.relationalTable sampleEmptyPayload,
                    ty := "PostgreSQLTable" } }
    (by decide) (by decide)

/-- Claim C6: with both factory-identifier fields empty the create/update
handler dereferences the nil `dataFactoryId` pointer while constructing the
dataset identifier: the invocation dies with the modelled nil-pointer panic
and no external call is made, so the handler is only safe when at least one
of the two fields is non-empty. -/
theorem createUpdate_bothEmpty_nil_deref (subscriptionId : String)
    (d : ResourceState) (api : CreateUpdateApi)
    (hname : d.data_factory_name = "") (hid : d.data_factory_id = "") :
    resourceDataFactoryDatasetPostgreSQLCreateUpdate subscriptionId d api =
      ⟨CreateUpdateOutcome.panicNilDataFactoryId, false, none⟩ := by
  simp [resourceDataFactoryDatasetPostgreSQLCreateUpdate, hname, hid]

/-- Claim C6 witness: the nil dereference at a concrete state with both
factory fields empty. -/
theorem createUpdate_bothEmpty_nil_deref_witness :
    resourceDataFactoryDatasetPostgreSQLCreateUpdate "sub1"
        { sampleState with data_factory_name := "" }
        { probe := { err := none, statusCode := 200, id := none },
          createOrUpdateErr := none,
          readResp := { err := none, statusCode := 200,
                        properties := BasicDataset.relationalTable sampleEmptyPayload,
                        ty := "PostgreSQLTable" } } =
      ⟨CreateUpdateOutcome.panicNilDataFactoryId, false, none⟩ :=
  createUpdate_bothEmpty_nil_deref "sub1"
    { sampleState with data_factory_name := "" }
    { probe := { err := none, statusCode := 200, id := none },
      createOrUpdateErr := none,
      readResp := { err := none, statusCode := 200,
                    properties := BasicDataset.relationalTable sampleEmptyPayload,
                    ty := "PostgreSQLTable" } }
    rfl rfl

/-- Claim C10: the resource descriptor declares default per-operation timeouts
of 30 minutes for create, update and delete and 5 minutes for read. -/
theorem descriptor_default_timeouts :
    resourceDataFactoryDatasetPostgreSQL.timeouts.create = 30 * timeMinute ∧
    resourceDataFactoryDatasetPostgreSQL.timeouts.update = 30 * timeMinute ∧
    resourceDataFactoryDatasetPostgreSQL.timeouts.delete = 30 * timeMinute ∧
    resourceDataFactoryDatasetPostgreSQL.timeouts.read = 5 * timeMinute :=
  ⟨rfl, rfl, rfl, rfl⟩

end DataFactoryPostgreSQL
